import Mathlib

/-!
Shallow embedding of `src/common/db_bridge.h` (Boolberry DB bridge layer):
the transaction broker `db_bridge_base`, the per-table accessor
`key_value_accessor_base`, and the POD (fixed-layout) value helpers.

Byte buffers are `List Nat` (each element one byte).  Machine sizes
(`size_t`, `uint64_t`) are `Nat`.  C++ exceptions (`CHECK_AND_ASSERT_THROW_MES`)
are modelled by a `Bool` "no-throw" flag or an `Option` result, with the
convention that a thrown path returns the object state as it was at the
throw point (C++ objects survive exceptions).
-/

namespace DbBridge

/-- A raw byte buffer, as handed to / returned by the `i_db_adapter` interface. -/
abbrev Bytes := List Nat



/-- The backing store of the reference adapter: an association list from
`(table_id, key bytes)` to value bytes.

Modelled from the spec: the concrete storage engine behind `i_db_adapter` is
out of scope of the sources (spec section 4.1 gives only its contract), so we
use the canonical in-memory realization of that contract: `get` looks up the
last value stored for the key, `set` upserts, `erase` removes,
`get_table_size` counts the entries of the table. -/
abbrev AdapterStore := List ((Nat × Bytes) × Bytes)

/-- Adapter `get(tid, key) -> optional bytes`: the value last stored for the key. -/
def adapter_get (s : AdapterStore) (tid : Nat) (k : Bytes) : Option Bytes :=
  (List.find? (fun e => e.1 = (tid, k)) s).map (fun e => e.2)

/-- Adapter `set(tid, key, value) -> bool`: upsert; the reference store always succeeds. -/
def adapter_set (s : AdapterStore) (tid : Nat) (k v : Bytes) : AdapterStore × Bool :=
  (((tid, k), v) :: List.filter (fun e => ¬ (e.1 = (tid, k))) s, true)

/-- Adapter `erase(tid, key) -> bool`: remove the entry, report whether it was present. -/
def adapter_erase (s : AdapterStore) (tid : Nat) (k : Bytes) : AdapterStore × Bool :=
  (List.filter (fun e => ¬ (e.1 = (tid, k))) s,
   (List.find? (fun e => e.1 = (tid, k)) s).isSome)

/-- Adapter `clear_table(tid)`: drop every entry of the table.  The boolean
outcome reported by a concrete engine is external, so callers that forward it
take it as a parameter. -/
def adapter_clear_table (s : AdapterStore) (tid : Nat) : AdapterStore :=
  List.filter (fun e => ¬ (e.1.1 = tid)) s

/-- Adapter `get_table_size(tid) -> count`. -/
def adapter_get_table_size (s : AdapterStore) (tid : Nat) : Nat :=
  (List.filter (fun e => e.1.1 = tid) s).length

/-- Per-table accessor state, `key_value_accessor_base`.

The field `exclusive_mode` embeds `m_exclusive_runner`.
Modelled from the spec: `epee::misc_utils::exclusive_access_helper`
(`misc_language.h`) is not among the sources.  Per spec sections 4.3, 5 and 9
it keeps a per-thread boolean "exclusive mode" flag:
`set/clear_exclusive_mode_for_this_thread` flip the calling thread's flag,
`run` hands that flag to its thunk, and `run_exclusively` executes its thunk
under a mutual-exclusion lock (sequentially modelled: it simply executes it).
We model the calling thread's view, so the flag is a single `Bool`. -/
structure Accessor where
  m_tid : Nat
  m_cached_size : Nat
  m_cached_size_is_valid : Bool
  exclusive_mode : Bool
deriving DecidableEq, Repr

/-- `on_write_transaction_begin`: sets exclusive mode for the calling thread. -/
def on_write_transaction_begin (a : Accessor) : Accessor :=
  { a with exclusive_mode := true }

/-- `on_write_transaction_abort`: clears exclusive mode for the calling thread
(the source touches nothing else). -/
def on_write_transaction_abort (a : Accessor) : Accessor :=
  { a with exclusive_mode := false }

/-- `on_write_transaction_commit`: clears exclusive mode for the calling thread
(the source touches nothing else). -/
def on_write_transaction_commit (a : Accessor) : Accessor :=
  { a with exclusive_mode := false }

/-- `pod_object_value_helper::set` — in the source its body is a `TODO` stub:
it writes nothing to the database. -/
def pod_object_value_helper_set (tid : Nat) (s : AdapterStore) (k v : Bytes) :
    AdapterStore :=
  s

/-- `pod_object_value_helper::get` — in the source its body is a `TODO` stub:
it returns `nullptr` for every key. -/
def pod_object_value_helper_get (tid : Nat) (s : AdapterStore) (k : Bytes) :
    Option Bytes :=
  none

/-- `key_value_accessor_base::set`: invalidates the size cache, then delegates
to the selected value helper (the POD helper, a stub in the source). -/
def accessor_set (a : Accessor) (s : AdapterStore) (k v : Bytes) :
    Accessor × AdapterStore :=
  ({ a with m_cached_size_is_valid := false },
   pod_object_value_helper_set a.m_tid s k v)

/-- `key_value_accessor_base::get`: delegates to the selected value helper
(the POD helper, a stub in the source). -/
def accessor_get (a : Accessor) (s : AdapterStore) (k : Bytes) : Option Bytes :=
  pod_object_value_helper_get a.m_tid s k

/-- `key_value_accessor_base::erase`: `m_dbb.erase` (adapter erase, result
discarded), then invalidate the cache inside `run_exclusively`. -/
def accessor_erase (a : Accessor) (s : AdapterStore) (k : Bytes) :
    Accessor × AdapterStore :=
  ({ a with m_cached_size_is_valid := false }, (adapter_erase s a.m_tid k).1)

/-- `key_value_accessor_base::erase_validate`: read the key through `get`,
erase it, invalidate the cache, and return whether `get` yielded an object. -/
def accessor_erase_validate (a : Accessor) (s : AdapterStore) (k : Bytes) :
    Accessor × AdapterStore × Bool :=
  let res := accessor_get a s k
  let s2 := (adapter_erase s a.m_tid k).1
  ({ a with m_cached_size_is_valid := false }, s2, res.isSome)

/-- `key_value_accessor_base::clear`: `m_dbb.clear(m_tid)` (adapter
`clear_table`, whose boolean outcome `r` from the concrete engine is passed in
here and discarded by the source), invalidate the cache, `return true` (the
`size_t` value 1). -/
def accessor_clear (a : Accessor) (s : AdapterStore) (r : Bool) :
    Accessor × AdapterStore × Nat :=
  ({ a with m_cached_size_is_valid := false }, adapter_clear_table s a.m_tid, 1)

/-- `key_value_accessor_base::size`: under `m_exclusive_runner.run`, return the
cached size when in exclusive mode with a valid cache; otherwise query the
adapter, refreshing the cache only in exclusive mode. -/
def accessor_size (a : Accessor) (s : AdapterStore) : Accessor × Nat :=
  if a.exclusive_mode && a.m_cached_size_is_valid then
    (a, a.m_cached_size)
  else
    let sz := adapter_get_table_size s a.m_tid
    if a.exclusive_mode then
      ({ a with m_cached_size := sz, m_cached_size_is_valid := true }, sz)
    else
      (a, sz)

/-- `key_value_accessor_base::size_no_cache`: always query the adapter. -/
def accessor_size_no_cache (a : Accessor) (s : AdapterStore) : Nat :=
  adapter_get_table_size s a.m_tid

/-- Broker state, `db_bridge_base`: the opened flag and the set of attached
notification receivers (`std::set` of receiver pointers; pointers are
modelled as `Nat` identities, the set as a duplicate-free list). -/
structure db_bridge_base where
  m_db_opened : Bool
  m_attached_container_receivers : List Nat
deriving DecidableEq, Repr

/-- `db_bridge_base::is_open`. -/
def bridge_is_open (b : db_bridge_base) : Bool :=
  b.m_db_opened

/-- `db_bridge_base::close`: mark the broker closed, then return the adapter's
`close()` outcome `r` (engine-determined, passed in). -/
def bridge_close (b : db_bridge_base) (r : Bool) : db_bridge_base × Bool :=
  ({ b with m_db_opened := false }, r)

/-- `db_bridge_base::attach_container_receiver`: `insert` into the receiver
set, then `CHECK_AND_ASSERT_THROW_MES` that insertion took place.  Returns the
broker state at exit and a no-throw flag (`false` = the check threw). -/
def attach_container_receiver (b : db_bridge_base) (rcv : Nat) :
    db_bridge_base × Bool :=
  if rcv ∈ b.m_attached_container_receivers then
    (b, false)
  else
    ({ b with m_attached_container_receivers :=
        b.m_attached_container_receivers ++ [rcv] }, true)

/-- `db_bridge_base::detach_container_receiver`: `erase` from the receiver
set, then `CHECK_AND_ASSERT_THROW_MES` that exactly one element was erased.
Returns the broker state at exit and a no-throw flag. -/
def detach_container_receiver (b : db_bridge_base) (rcv : Nat) :
    db_bridge_base × Bool :=
  ({ b with m_attached_container_receivers :=
      b.m_attached_container_receivers.erase rcv },
   rcv ∈ b.m_attached_container_receivers)

/-- `db_bridge_base::begin_db_transaction`: call the adapter's
`begin_transaction` (outcome `r`, engine-determined), then — regardless of
`r` — call `on_write_transaction_begin` on every attached receiver, and
return `r`.  `env` maps each receiver identity to its accessor state. -/
def begin_db_transaction (b : db_bridge_base) (r : Bool)
    (env : Nat → Accessor) : Bool × (Nat → Accessor) :=
  (r, fun p => if p ∈ b.m_attached_container_receivers then
        on_write_transaction_begin (env p)
      else env p)

/-- `db_bridge_base::commit_db_transaction`: call the adapter's
`commit_transaction` (outcome `r`); `CHECK_AND_ASSERT_THROW_MES` on failure
(no receiver is notified on the throwing path); on success call
`on_write_transaction_commit` on every attached receiver.  First component:
no-throw flag. -/
def commit_db_transaction (b : db_bridge_base) (r : Bool)
    (env : Nat → Accessor) : Bool × (Nat → Accessor) :=
  if r then
    (true, fun p => if p ∈ b.m_attached_container_receivers then
          on_write_transaction_commit (env p)
        else env p)
  else
    (false, env)

/-- Little-endian byte decomposition of a value, width `n` bytes: the memory
image `reinterpret_cast` reads and writes for a POD object. -/
def pod_bytes_aux : Nat → Nat → Bytes
  | 0, _ => []
  | n + 1, v => v % 256 :: pod_bytes_aux n (v / 256)

/-- `sizeof(t_object_pod_t)` for the modelled POD value type: 8 bytes
(a `uint64_t`-sized fixed-layout record). -/
def pod_size : Nat := 8

/-- The byte image of a POD value (`reinterpret_cast<const char*>(&obj)`,
`sizeof obj` bytes). -/
def pod_to_bytes (v : Nat) : Bytes :=
  pod_bytes_aux pod_size v

/-- Reassemble a POD value from its byte image
(`*reinterpret_cast<const t_object_pod_t*>(buffer.data())`). -/
def pod_from_bytes : Bytes → Nat
  | [] => 0
  | b :: t => b + 256 * pod_from_bytes t

/-- `db_bridge_base::set_pod_object`: store the value's byte image under the
key; forward the adapter's boolean outcome. -/
def set_pod_object (s : AdapterStore) (tid : Nat) (k : Bytes) (v : Nat) :
    AdapterStore × Bool :=
  adapter_set s tid k (pod_to_bytes v)

/-- `db_bridge_base::get_pod_object`: fetch the buffer; fail (return `none`)
when the adapter reports no value; `CHECK_AND_ASSERT_MES` that the buffer
length equals `sizeof(t_object_pod_t)`, failing otherwise; else reinterpret
the bytes as the value. -/
def get_pod_object (s : AdapterStore) (tid : Nat) (k : Bytes) : Option Nat :=
  match adapter_get s tid k with
  | none => none
  | some buf =>
    if buf.length = pod_size then some (pod_from_bytes buf) else none

/-! ### Helper lemmas -/

theorem pod_bytes_aux_length (n v : Nat) : (pod_bytes_aux n v).length = n := by
  induction n generalizing v with
  | zero => rfl
  | succ n ih => simp [pod_bytes_aux, ih]

theorem pod_from_bytes_aux (n v : Nat) (h : v < 256 ^ n) :
    pod_from_bytes (pod_bytes_aux n v) = v := by
  induction n generalizing v with
  | zero =>
    have hv : v = 0 := Nat.lt_one_iff.mp (by simpa using h)
    simp [pod_bytes_aux, pod_from_bytes, hv]
  | succ n ih =>
    have hdiv : v / 256 < 256 ^ n := by
      rw [Nat.div_lt_iff_lt_mul (by norm_num)]
      calc v < 256 ^ (n + 1) := h
        _ = 256 ^ n * 256 := by ring
    simp [pod_bytes_aux, pod_from_bytes, ih _ hdiv]
    omega

/-! ### Claim theorems -/

/-- C1 counterexample: the claim says `on_write_transaction_abort` (and
`on_write_transaction_commit`) invalidate the accessor's size cache; on an
accessor whose cache is valid, both handlers in the source leave
`m_cached_size_is_valid = true` — they touch only the exclusive marker. -/
theorem abort_notification_preserves_cache_flag_cex :
    (on_write_transaction_abort ⟨0, 5, true, true⟩).m_cached_size_is_valid = true ∧
    (on_write_transaction_commit ⟨0, 5, true, true⟩).m_cached_size_is_valid = true := by
  decide

/-- C1 (amended): the `on_write_transaction_commit` and
`on_write_transaction_abort` handlers clear the per-thread exclusive marker
and change nothing else: the cached size and its validity flag keep their
prior values (the accessor's own `abort_transaction`, not the handler, is
what invalidates its cache). -/
theorem commit_abort_handlers_clear_exclusive_only (a : Accessor) :
    on_write_transaction_abort a = { a with exclusive_mode := false } ∧
    on_write_transaction_commit a = { a with exclusive_mode := false } ∧
    (on_write_transaction_abort a).m_cached_size_is_valid =
      a.m_cached_size_is_valid ∧
    (on_write_transaction_commit a).m_cached_size_is_valid =
      a.m_cached_size_is_valid :=
  ⟨rfl, rfl, rfl, rfl⟩

/-- C2: each mutating accessor operation — `set`, `erase`, `clear` — leaves
the size cache invalid afterwards, unconditionally: for every prior accessor
state, store, key, value and adapter outcome. -/
theorem mutators_invalidate_size_cache (a : Accessor) (s : AdapterStore)
    (k v : Bytes) (r : Bool) :
    (accessor_set a s k v).1.m_cached_size_is_valid = false ∧
    (accessor_erase a s k).1.m_cached_size_is_valid = false ∧
    (accessor_clear a s r).1.m_cached_size_is_valid = false :=
  ⟨rfl, rfl, rfl⟩

/-- C3: `begin_db_transaction` returns exactly the adapter's
`begin_transaction` outcome `r`, and — whatever `r` is — applies
`on_write_transaction_begin` to every attached receiver, leaving unattached
receivers untouched. -/
theorem begin_db_transaction_notifies_regardless (b : db_bridge_base)
    (r : Bool) (env : Nat → Accessor) :
    (begin_db_transaction b r env).1 = r ∧
    (∀ p, p ∈ b.m_attached_container_receivers →
      (begin_db_transaction b r env).2 p = on_write_transaction_begin (env p)) ∧
    (∀ p, p ∉ b.m_attached_container_receivers →
      (begin_db_transaction b r env).2 p = env p) := by
  refine ⟨rfl, ?_, ?_⟩ <;> intro p h <;> simp [begin_db_transaction, h]

/-- C3 witness: on a broker with receivers 1 and 2, a failed begin
(`r = false`) still returns `false` and still notifies receiver 1, while the
unattached receiver 7 is untouched. -/
theorem begin_db_transaction_notifies_regardless_wit :
    (begin_db_transaction ⟨true, [1, 2]⟩ false
        (fun _ => ⟨0, 0, false, false⟩)).1 = false ∧
    (begin_db_transaction ⟨true, [1, 2]⟩ false
        (fun _ => ⟨0, 0, false, false⟩)).2 1 =
      on_write_transaction_begin ⟨0, 0, false, false⟩ ∧
    (begin_db_transaction ⟨true, [1, 2]⟩ false
        (fun _ => ⟨0, 0, false, false⟩)).2 7 = ⟨0, 0, false, false⟩ := by
  have h := begin_db_transaction_notifies_regardless ⟨true, [1, 2]⟩ false
    (fun _ => (⟨0, 0, false, false⟩ : Accessor))
  exact ⟨h.1, h.2.1 1 (by decide), h.2.2 7 (by decide)⟩

/-- C4: `size()` returns the cached value with an unchanged state exactly on
the exclusive-and-valid fast path; otherwise it returns the adapter's
`get_table_size` and refreshes the cache precisely when in exclusive mode;
`size_no_cache()` always returns the adapter's count and never touches
state. -/
theorem size_cache_fast_path_spec (a : Accessor) (s : AdapterStore) :
    (a.exclusive_mode = true → a.m_cached_size_is_valid = true →
      accessor_size a s = (a, a.m_cached_size)) ∧
    (¬ (a.exclusive_mode = true ∧ a.m_cached_size_is_valid = true) →
      (accessor_size a s).2 = adapter_get_table_size s a.m_tid ∧
      (accessor_size a s).1 =
        (if a.exclusive_mode then
          { a with m_cached_size := adapter_get_table_size s a.m_tid,
                   m_cached_size_is_valid := true }
         else a)) ∧
    accessor_size_no_cache a s = adapter_get_table_size s a.m_tid := by
  refine ⟨?_, ?_, rfl⟩
  · intro h1 h2
    simp [accessor_size, h1, h2]
  · intro h
    by_cases ha : a.exclusive_mode = true
    · have hv : a.m_cached_size_is_valid = false := by
        cases hvv : a.m_cached_size_is_valid
        · rfl
        · exact absurd ⟨ha, hvv⟩ h
      simp [accessor_size, ha, hv]
    · have ha2 : a.exclusive_mode = false := by
        cases hvv : a.exclusive_mode
        · rfl
        · exact absurd hvv ha
      simp [accessor_size, ha2]

/-- C4 witness: an exclusive accessor with a valid cached size 7 over an empty
store returns 7 from cache with unchanged state, while `size_no_cache`
reports the adapter's count 0. -/
theorem size_cache_fast_path_spec_wit :
    accessor_size ⟨3, 7, true, true⟩ [] = (⟨3, 7, true, true⟩, 7) ∧
    accessor_size_no_cache ⟨3, 7, true, true⟩ [] = 0 := by
  have h := size_cache_fast_path_spec ⟨3, 7, true, true⟩ ([] : AdapterStore)
  exact ⟨h.1 rfl rfl, rfl⟩

/-- C5 (code bug): on a table that does contain key `[107]`,
`erase_validate` returns `false`, because `pod_object_value_helper::get` is a
`TODO` stub returning `nullptr` in the source; the claim (and the spec) say
it must return `true` for a present key. -/
theorem erase_validate_stubbed_get_returns_false :
    adapter_get [((0, [107]), [1, 2, 3, 4, 5, 6, 7, 8])] 0 [107] =
      some [1, 2, 3, 4, 5, 6, 7, 8] ∧
    (accessor_erase_validate ⟨0, 0, false, false⟩
        [((0, [107]), [1, 2, 3, 4, 5, 6, 7, 8])] [107]).2.2 = false := by
  decide

/-- C6: `commit_db_transaction` with a failed adapter commit throws and
notifies no receiver (every accessor state is unchanged); with a successful
commit it applies `on_write_transaction_commit` to every attached receiver
and leaves unattached receivers untouched. -/
theorem commit_db_transaction_notify_on_success_only (b : db_bridge_base)
    (env : Nat → Accessor) :
    commit_db_transaction b false env = (false, env) ∧
    (commit_db_transaction b true env).1 = true ∧
    (∀ p, p ∈ b.m_attached_container_receivers →
      (commit_db_transaction b true env).2 p =
        on_write_transaction_commit (env p)) ∧
    (∀ p, p ∉ b.m_attached_container_receivers →
      (commit_db_transaction b true env).2 p = env p) := by
  refine ⟨rfl, rfl, ?_, ?_⟩ <;> intro p h <;> simp [commit_db_transaction, h]

/-- C6 witness: on a broker with attached receiver 5, a successful commit
notifies receiver 5, and a failed commit throws with all receiver states
unchanged. -/
theorem commit_db_transaction_notify_on_success_only_wit :
    (commit_db_transaction ⟨true, [5]⟩ true (fun _ => ⟨1, 2, true, true⟩)).2 5 =
      on_write_transaction_commit ⟨1, 2, true, true⟩ ∧
    commit_db_transaction ⟨true, [5]⟩ false (fun _ => ⟨1, 2, true, true⟩) =
      (false, fun _ => ⟨1, 2, true, true⟩) := by
  have h := commit_db_transaction_notify_on_success_only ⟨true, [5]⟩
    (fun _ => (⟨1, 2, true, true⟩ : Accessor))
  exact ⟨h.2.2.1 5 (by decide), h.1⟩

/-- C7: attach of an already-attached receiver throws with the set unchanged;
attach of a new receiver adds exactly that receiver; detach of an unattached
receiver throws with the set unchanged; detach of an attached receiver
succeeds and removes exactly that receiver; attach followed by detach of the
same receiver leaves the attached-set size unchanged. -/
theorem attach_detach_strict_pairing (b : db_bridge_base) (rcv : Nat) :
    (rcv ∈ b.m_attached_container_receivers →
      attach_container_receiver b rcv = (b, false)) ∧
    (rcv ∉ b.m_attached_container_receivers →
      attach_container_receiver b rcv =
        ({ b with m_attached_container_receivers :=
            b.m_attached_container_receivers ++ [rcv] }, true)) ∧
    (rcv ∉ b.m_attached_container_receivers →
      detach_container_receiver b rcv = (b, false)) ∧
    (rcv ∈ b.m_attached_container_receivers →
      (detach_container_receiver b rcv).2 = true ∧
      (detach_container_receiver b rcv).1.m_attached_container_receivers =
        b.m_attached_container_receivers.erase rcv) ∧
    (rcv ∉ b.m_attached_container_receivers →
      ((detach_container_receiver (attach_container_receiver b rcv).1
          rcv).1.m_attached_container_receivers).length =
        b.m_attached_container_receivers.length) := by
  refine ⟨?_, ?_, ?_, ?_, ?_⟩
  · intro h
    simp [attach_container_receiver, h]
  · intro h
    simp [attach_container_receiver, h]
  · intro h
    simp [detach_container_receiver, h, List.erase_of_not_mem h]
  · intro h
    exact ⟨by simp [detach_container_receiver, h], rfl⟩
  · intro h
    simp [attach_container_receiver, detach_container_receiver, h,
      List.erase_append_right _ h]

/-- C7 witness: on a broker with attached set `[1]`: attaching 2 succeeds and
yields `[1, 2]`; attaching 1 again throws with the set unchanged; detaching 2
throws with the set unchanged; detaching 1 succeeds; attach-then-detach of 2
leaves the set size at 1. -/
theorem attach_detach_strict_pairing_wit :
    attach_container_receiver ⟨true, [1]⟩ 2 = (⟨true, [1, 2]⟩, true) ∧
    attach_container_receiver ⟨true, [1]⟩ 1 = (⟨true, [1]⟩, false) ∧
    detach_container_receiver ⟨true, [1]⟩ 2 = (⟨true, [1]⟩, false) ∧
    (detach_container_receiver ⟨true, [1]⟩ 1).2 = true ∧
    ((detach_container_receiver (attach_container_receiver ⟨true, [1]⟩ 2).1
        2).1.m_attached_container_receivers).length = 1 := by
  have h := attach_detach_strict_pairing ⟨true, [1]⟩ 2
  have h1 := attach_detach_strict_pairing ⟨true, [1]⟩ 1
  refine ⟨h.2.1 (by decide), h1.1 (by decide), h.2.2.1 (by decide),
    (h1.2.2.2.1 (by decide)).1, ?_⟩
  have hlen := h.2.2.2.2 (by decide)
  simpa using hlen

/-- C8 counterexample: with the adapter's `clear_table` reporting failure
(`r = false`), the accessor's `clear()` still returns the success value
`true` (the `size_t` 1): the failure is not reported to the caller. -/
theorem clear_swallows_adapter_failure_cex :
    (accessor_clear ⟨0, 0, false, false⟩ [] false).2.2 = 1 := by
  decide

/-- C8 (amended): `clear()` discards the adapter's `clear_table` outcome
entirely — for every state, store and outcome `r` it empties the table,
invalidates the cache and returns the constant success value 1. -/
theorem clear_ignores_adapter_result (a : Accessor) (s : AdapterStore)
    (r : Bool) :
    accessor_clear a s r =
      ({ a with m_cached_size_is_valid := false },
       adapter_clear_table s a.m_tid, 1) :=
  rfl

/-- C9: after `set_pod_object` stores value `v` (below the type's range
bound), the adapter holds exactly the value's byte image, whose length is the
fixed POD size, and `get_pod_object` passes the size check and decodes `v`
back; conversely, on any stored buffer whose length differs from the fixed
size, `get_pod_object` reports failure instead of decoding. -/
theorem pod_object_round_trip_and_size_check (s : AdapterStore) (tid : Nat)
    (k : Bytes) (v : Nat) (hv : v < 256 ^ pod_size) :
    adapter_get (set_pod_object s tid k v).1 tid k = some (pod_to_bytes v) ∧
    (pod_to_bytes v).length = pod_size ∧
    get_pod_object (set_pod_object s tid k v).1 tid k = some v ∧
    (∀ buf, adapter_get s tid k = some buf → buf.length ≠ pod_size →
      get_pod_object s tid k = none) := by
  have hget : adapter_get (set_pod_object s tid k v).1 tid k =
      some (pod_to_bytes v) := by
    simp [set_pod_object, adapter_set, adapter_get]
  refine ⟨hget, pod_bytes_aux_length _ _, ?_, ?_⟩
  · simp [get_pod_object, hget, pod_to_bytes, pod_bytes_aux_length,
      pod_from_bytes_aux _ _ hv]
  · intro buf hbuf hlen
    simp [get_pod_object, hbuf, hlen]

/-- C9 witness: storing the value 300 under key `[1]` in an empty store and
reading it back yields 300; reading a stored 1-byte buffer as an 8-byte POD
object fails the size check and yields nothing. -/
theorem pod_object_round_trip_and_size_check_wit :
    get_pod_object (set_pod_object [] 0 [1] 300).1 0 [1] = some 300 ∧
    get_pod_object [((0, [2]), [9])] 0 [2] = none := by
  have h := pod_object_round_trip_and_size_check ([] : AdapterStore) 0 [1] 300
    (by decide)
  have h2 := pod_object_round_trip_and_size_check
    ([((0, [2]), [9])] : AdapterStore) 0 [2] 300 (by decide)
  exact ⟨h.2.2.1, h2.2.2.2 [9] (by decide) (by decide)⟩

/-- C10: `close()` marks the broker closed (`is_open` is `false` afterwards)
while returning the adapter's outcome unchanged, and a second `close()` on
the already-closed broker again leaves `is_open` false and returns the
adapter's outcome — both are total functions, so neither call crashes. -/
theorem close_marks_closed_and_forwards_result (b : db_bridge_base)
    (r r2 : Bool) :
    (bridge_close b r).2 = r ∧
    bridge_is_open (bridge_close b r).1 = false ∧
    bridge_is_open (bridge_close (bridge_close b r).1 r2).1 = false ∧
    (bridge_close (bridge_close b r).1 r2).2 = r2 :=
  ⟨rfl, rfl, rfl, rfl⟩

end DbBridge
